import Mathlib

/-
Shallow embedding of the purpleair-rs crate (src/measurement.rs, src/lan.rs).

Modelling conventions:
* Rust `f64` values are modelled as exact rationals `ℚ` (the algorithms here
  are plain field arithmetic well inside the exactly-representable range).
* Rust machine integers (`i32`, `i64`, `u64`) are modelled as `ℤ`/`ℕ`; the
  numeric range of every quantity appearing in the claims is far below the
  word size, so no wrap-around is modelled.
* A Rust panic (`expect`, `assert!`, `unwrap`) is modelled as `Option.none`
  of the surrounding computation; a Rust `Option<f64>` inside a panicking
  context therefore shows up as the *inner* `Option` of an
  `Option (Option ℚ)`, with the outer layer recording panics.
-/

set_option autoImplicit false

namespace PurpleAir

/-- Truncation of a rational toward zero, the semantics of Rust's
`as i32` / `as i64` float-to-integer casts (for in-range inputs). -/
def ratTrunc (q : ℚ) : ℤ :=
  if 0 ≤ q then ⌊q⌋ else ⌈q⌉

/-- `fn f_to_c(f: i64) -> f64 { (f as f64 - 32.0) * 5.0 / 9.0 }` from
src/measurement.rs. -/
def f_to_c (f : ℤ) : ℚ :=
  ((f : ℚ) - 32) * 5 / 9

/-- `PmSize` from src/measurement.rs. -/
inductive PmSize
  | pm0v3
  | pm0v5
  | pm1v0
  | pm2v5
  | pm5v0
  | pm10v0
deriving DecidableEq

/-- `PmSize::string` from src/measurement.rs. -/
def PmSize.string : PmSize → String
  | .pm0v3 => "0_3"
  | .pm0v5 => "0_5"
  | .pm1v0 => "1_0"
  | .pm2v5 => "2_5"
  | .pm5v0 => "5_0"
  | .pm10v0 => "10_0"

/-- `PmType` from src/measurement.rs. -/
inductive PmType
  | atm
  | cf1
deriving DecidableEq

/-- `PmType::string` from src/measurement.rs. -/
def PmType.string : PmType → String
  | .atm => "atm"
  | .cf1 => "cf_1"

/-- `Channel` from src/measurement.rs. -/
inductive Channel
  | A
  | B
deriving DecidableEq

/-- `Channel::string` from src/measurement.rs. -/
def Channel.string : Channel → String
  | .A => ""
  | .B => "_b"

/-- `Channel::iter()` (the `EnumIter` derive enumerates the variants in
declaration order). -/
def channels : List Channel := [Channel.A, Channel.B]

/-- The `CONCENTRATION_LIMITS` table of `Measurement::get_aqi`
(src/measurement.rs), in tenths of µg/m³. -/
def CONCENTRATION_LIMITS : List (ℤ × ℤ) :=
  [(0, 120), (121, 354), (355, 554), (555, 1504),
   (1505, 2504), (2505, 3504), (3505, 5004)]

/-- The `AQI_LIMITS` table of `Measurement::get_aqi` (src/measurement.rs). -/
def AQI_LIMITS : List (ℤ × ℤ) :=
  [(0, 50), (51, 100), (101, 150), (151, 200),
   (201, 300), (301, 400), (401, 500)]

/-- The `.iter().enumerate().filter(..).next()` search of
`Measurement::get_aqi`: the first table entry (with its index) whose
inclusive range contains `v`. -/
def findBucket (v : ℤ) : ℕ → List (ℤ × ℤ) → Option (ℕ × (ℤ × ℤ))
  | _, [] => none
  | i, (lo, hi) :: rest =>
    if lo ≤ v ∧ v ≤ hi then some (i, (lo, hi)) else findBucket v (i + 1) rest

/-- `Measurement::get_aqi` from src/measurement.rs: truncate `10 * pm` to an
integer, locate the first concentration bucket containing it (defaulting to
the last bucket), and linearly interpolate on the paired AQI bucket.
The `AQI_LIMITS.getD` default is never reached (the index is always < 7). -/
def get_aqi (pm_2v5 : ℚ) : ℚ :=
  let v : ℤ := ratTrunc (10 * pm_2v5)
  let hit := (findBucket v 0 CONCENTRATION_LIMITS).getD
    (CONCENTRATION_LIMITS.length - 1, CONCENTRATION_LIMITS.getLastD (0, 0))
  let idx := hit.1
  let c_low : ℚ := (hit.2.1 : ℚ) / 10
  let c_high : ℚ := (hit.2.2 : ℚ) / 10
  let i_low : ℚ := ((AQI_LIMITS.getD idx (0, 0)).1 : ℚ)
  let i_high : ℚ := ((AQI_LIMITS.getD idx (0, 0)).2 : ℚ)
  (i_high - i_low) * ((v : ℚ) / 10 - c_low) / (c_high - c_low) + i_low

/-- `Measurement::get_epa_correction` from src/measurement.rs. -/
def get_epa_correction (pm2v5_cf_1_a pm2v5_cf_1_b : ℚ) (humidity : ℤ) : ℚ :=
  let pm2v5_mean := (pm2v5_cf_1_a + pm2v5_cf_1_b) / 2
  max 0 (0.52 * pm2v5_mean - 0.085 * (humidity : ℚ) + 5.71)

/-- The trait-default `Measurement::pm_2v5_epa_correction`
(src/measurement.rs), abstracted over the implementor's
`particulate_mass(Pm2v5, Cf1, ·)` accessor and `humidity()`: collect the
per-channel values that are present; absent unless both channels delivered a
value.  The `getD` defaults are unreachable (the length is checked first). -/
def pm_2v5_epa_correction (pmMass : Channel → Option ℚ) (humidity : ℤ) :
    Option ℚ :=
  let pm_2v5_cf_1 : List ℚ := (channels.map pmMass).filterMap id
  if pm_2v5_cf_1.length ≠ 2 then none
  else some (get_epa_correction (pm_2v5_cf_1.getD 0 0) (pm_2v5_cf_1.getD 1 0)
    humidity)

/-- The trait-default `Measurement::pm_2v5_aqi_epa` (src/measurement.rs). -/
def pm_2v5_aqi_epa (pmMass : Channel → Option ℚ) (humidity : ℤ) : Option ℚ :=
  match pm_2v5_epa_correction pmMass humidity with
  | some value => some (get_aqi value)
  | none => none

/-- The trait-default `Measurement::temp_c` (src/measurement.rs), abstracted
over the implementor's `temp_f()` accessor. -/
def temp_c (temp_f : ℤ) : ℚ :=
  f_to_c temp_f

/-- The trait-default `Measurement::dew_point_c` (src/measurement.rs),
abstracted over the implementor's `dew_point_f()` accessor. -/
def dew_point_c (dew_point_f : ℤ) : ℚ :=
  f_to_c dew_point_f

/-- A `serde_json::Value`, as far as the LAN measurement observes it.
JSON numbers keep serde's three internal representations (`f64`-stored,
`i64`-stored, `u64`-stored); arrays and objects are opaque, as the code
never inspects them beyond the kind predicates. -/
inductive JsonValue
  | null
  | bool (b : Bool)
  | numF (q : ℚ)
  | numI (n : ℤ)
  | numU (n : ℕ)
  | str (s : String)
  | arr
  | obj
deriving DecidableEq

/-- Largest `i64`, for serde's `is_i64`/`as_i64` on `u64`-stored numbers. -/
def i64Max : ℤ := 2 ^ 63 - 1

/-- `serde_json::Value::is_f64`: true exactly for `f64`-stored numbers. -/
def JsonValue.is_f64 : JsonValue → Bool
  | .numF _ => true
  | _ => false

/-- `serde_json::Value::is_i64`: true for `i64`-stored numbers and for
`u64`-stored numbers within `i64` range. -/
def JsonValue.is_i64 : JsonValue → Bool
  | .numI _ => true
  | .numU n => decide ((n : ℤ) ≤ i64Max)
  | _ => false

/-- `serde_json::Value::is_u64`: true for `u64`-stored numbers and for
non-negative `i64`-stored numbers. -/
def JsonValue.is_u64 : JsonValue → Bool
  | .numU _ => true
  | .numI n => decide (0 ≤ n)
  | _ => false

/-- `serde_json::Value::is_string`. -/
def JsonValue.is_string : JsonValue → Bool
  | .str _ => true
  | _ => false

/-- `serde_json::Value::as_f64`. -/
def JsonValue.as_f64 : JsonValue → Option ℚ
  | .numF q => some q
  | .numI n => some (n : ℚ)
  | .numU n => some (n : ℚ)
  | _ => none

/-- `serde_json::Value::as_i64`. -/
def JsonValue.as_i64 : JsonValue → Option ℤ
  | .numI n => some n
  | .numU n => if (n : ℤ) ≤ i64Max then some (n : ℤ) else none
  | _ => none

/-- `serde_json::Value::as_u64`. -/
def JsonValue.as_u64 : JsonValue → Option ℕ
  | .numU n => some n
  | .numI n => if 0 ≤ n then some n.toNat else none
  | _ => none

/-- `serde_json::Value::as_str`. -/
def JsonValue.as_str : JsonValue → Option String
  | .str s => some s
  | _ => none

/-- The private `JsonType` enum of src/lan.rs. -/
inductive JsonType
  | f64
  | i64
  | string
  | u64
deriving DecidableEq

/-- The kind check `LanMeasurement::get` performs for each `JsonType`
(the `assert!(value.is_*())` arms of src/lan.rs). -/
def jsonTypeMatches (v : JsonValue) : JsonType → Bool
  | .f64 => v.is_f64
  | .i64 => v.is_i64
  | .string => v.is_string
  | .u64 => v.is_u64

/-- `LanMeasurement` from src/lan.rs: a parsed flat JSON object.  The
`serde_json::Map` is modelled as an association list with leftmost-key
lookup. -/
structure LanMeasurement where
  json : List (String × JsonValue)

/-- `LanMeasurement::get` from src/lan.rs.  `none` models a panic: either
the `.expect(..)` on a missing key or the failed `assert!` on a kind
mismatch. -/
def LanMeasurement.get (m : LanMeasurement) (key : String)
    (expected_type : JsonType) : Option JsonValue :=
  match m.json.lookup key with
  | none => none
  | some value => if jsonTypeMatches value expected_type then some value
    else none

/-- `LanMeasurement::get_string` from src/lan.rs (the final `unwrap` cannot
fail after the kind check; `none` still models a panic). -/
def LanMeasurement.get_string (m : LanMeasurement) (key : String) :
    Option String :=
  (m.get key .string).bind JsonValue.as_str

/-- `LanMeasurement::get_f64` from src/lan.rs. -/
def LanMeasurement.get_f64 (m : LanMeasurement) (key : String) : Option ℚ :=
  (m.get key .f64).bind JsonValue.as_f64

/-- `LanMeasurement::get_i64` from src/lan.rs. -/
def LanMeasurement.get_i64 (m : LanMeasurement) (key : String) : Option ℤ :=
  (m.get key .i64).bind JsonValue.as_i64

/-- `LanMeasurement::get_u64` from src/lan.rs. -/
def LanMeasurement.get_u64 (m : LanMeasurement) (key : String) : Option ℕ :=
  (m.get key .u64).bind JsonValue.as_u64

/-- The key `format!("pm{}_{}{}", pm_size.string(), pm_type.string(),
channel.string())` of `LanMeasurement::particulate_mass`. -/
def pmMassKey (pm_size : PmSize) (pm_type : PmType) (channel : Channel) :
    String :=
  "pm" ++ pm_size.string ++ "_" ++ pm_type.string ++ channel.string

/-- `LanMeasurement::particulate_mass` from src/lan.rs.  The outer `Option`
models panics inside `get_f64`; the inner `Option` is the Rust
`Option<f64>` return value (`some none` = Rust `None`). -/
def LanMeasurement.particulate_mass (m : LanMeasurement) (pm_size : PmSize)
    (pm_type : PmType) (channel : Channel) : Option (Option ℚ) :=
  match pm_size with
  | .pm0v3 | .pm0v5 | .pm5v0 => some none
  | _ =>
    match m.get_f64 (pmMassKey pm_size pm_type channel) with
    | some q => some (some q)
    | none => none

/-- `LanMeasurement::humidity` (`self.get_i64("current_humidity")`). -/
def LanMeasurement.humidity (m : LanMeasurement) : Option ℤ :=
  m.get_i64 "current_humidity"

/-- The trait-default `pm_2v5_epa_correction` instantiated at
`LanMeasurement`, with the panics of `LanMeasurement::get` threaded through
(outer `none` = panic, `some none` = Rust `None`).  Channel A's
`particulate_mass` is evaluated first, as `Vec::collect` does. -/
def LanMeasurement.pm_2v5_epa_correction (m : LanMeasurement) :
    Option (Option ℚ) :=
  match m.particulate_mass .pm2v5 .cf1 .A, m.particulate_mass .pm2v5 .cf1 .B
    with
  | some ra, some rb =>
    let pm_2v5_cf_1 := [ra, rb].filterMap id
    if pm_2v5_cf_1.length ≠ 2 then some none
    else
      match m.humidity with
      | some h => some (some (get_epa_correction (pm_2v5_cf_1.getD 0 0)
          (pm_2v5_cf_1.getD 1 0) h))
      | none => none
  | _, _ => none

/-- The normalization `self.get_string("DateTime").to_uppercase()
.replace("/", "-")` of `LanMeasurement::timestamp` (src/lan.rs), written
character-wise: the pattern is the single character `/`, and on the ASCII
date-time strings involved Rust's Unicode `to_uppercase` agrees with
per-character upper-casing. -/
def normalizeDateTime (s : String) : String :=
  ⟨(s.data.map Char.toUpper).map fun c => if c = '/' then '-' else c⟩

/-- Value of an ASCII digit character, `none` otherwise. -/
def digitVal (c : Char) : Option ℕ :=
  if c.isDigit then some (c.toNat - 48) else none

/-- Parse exactly `k` ASCII digits into a number (most significant first),
returning the value together with the remaining characters. -/
def parseFixedNat : ℕ → ℕ → List Char → Option (ℕ × List Char)
  | 0, acc, cs => some (acc, cs)
  | k + 1, acc, c :: cs =>
    match digitVal c with
    | some d => parseFixedNat k (acc * 10 + d) cs
    | none => none
  | _ + 1, _, [] => none

/-- Consume one expected character. -/
def expectChar (c : Char) : List Char → Option (List Char)
  | c' :: cs => if c' = c then some cs else none
  | [] => none

/-- Skip an optional fractional-seconds part `.d+`. -/
def skipFrac : List Char → Option (List Char)
  | '.' :: c :: cs =>
    if c.isDigit then some ((c :: cs).dropWhile Char.isDigit) else none
  | ['.'] => none
  | cs => some cs

/-- Parse an RFC-3339 numeric offset or `Z`/`z`, in seconds. -/
def parseOffset (cs : List Char) : Option (ℤ × List Char) :=
  match cs with
  | 'Z' :: rest => some (0, rest)
  | 'z' :: rest => some (0, rest)
  | '+' :: rest => do
    let (h, rest) ← parseFixedNat 2 0 rest
    let rest ← expectChar ':' rest
    let (mi, rest) ← parseFixedNat 2 0 rest
    if h ≤ 23 ∧ mi ≤ 59 then some (((3600 * h + 60 * mi : ℕ) : ℤ), rest)
    else none
  | '-' :: rest => do
    let (h, rest) ← parseFixedNat 2 0 rest
    let rest ← expectChar ':' rest
    let (mi, rest) ← parseFixedNat 2 0 rest
    if h ≤ 23 ∧ mi ≤ 59 then some (-((3600 * h + 60 * mi : ℕ) : ℤ), rest)
    else none
  | _ => none

/-- Days from 1970-01-01 of the civil date `y-m-d` (proleptic Gregorian,
the standard days-from-civil computation). -/
def daysFromCivil (y : ℤ) (m d : ℕ) : ℤ :=
  let y' : ℤ := if m ≤ 2 then y - 1 else y
  let era : ℤ := Int.fdiv y' 400
  let yoe : ℕ := (y' - era * 400).toNat
  let doy : ℕ := (153 * (if 2 < m then m - 3 else m + 9) + 2) / 5 + (d - 1)
  let doe : ℕ := yoe * 365 + yoe / 4 - yoe / 100 + doy
  era * 146097 + (doe : ℤ) - 719468

/-- Modelled from the spec: parsing a strict RFC-3339 date-time string to a
UTC instant (seconds since the Unix epoch).  The repository delegates this
step to `chrono::DateTime::parse_from_rfc3339(..).with_timezone(&Utc)`,
whose source is not part of this repository; per RFC 3339 §5.6 (and
chrono's parser) the date/time separator may be `T`, `t`, or a space, the
offset is `Z`/`z` or `±hh:mm`, and fractional seconds are optional.
`none` models a parse error (which the caller turns into a panic). -/
def parseRfc3339ToUtc (s : String) : Option ℤ := do
  let cs := s.data
  let (y, cs) ← parseFixedNat 4 0 cs
  let cs ← expectChar '-' cs
  let (mo, cs) ← parseFixedNat 2 0 cs
  let cs ← expectChar '-' cs
  let (d, cs) ← parseFixedNat 2 0 cs
  let cs ← match cs with
    | c :: rest => if c = 'T' ∨ c = 't' ∨ c = ' ' then some rest else none
    | [] => none
  let (h, cs) ← parseFixedNat 2 0 cs
  let cs ← expectChar ':' cs
  let (mi, cs) ← parseFixedNat 2 0 cs
  let cs ← expectChar ':' cs
  let (sec, cs) ← parseFixedNat 2 0 cs
  let cs ← skipFrac cs
  let (off, cs) ← parseOffset cs
  if cs = [] ∧ 1 ≤ mo ∧ mo ≤ 12 ∧ 1 ≤ d ∧ d ≤ 31 ∧ h ≤ 23 ∧ mi ≤ 59 ∧
      sec ≤ 60 then
    some (86400 * daysFromCivil (y : ℤ) mo d +
      ((3600 * h + 60 * mi + sec : ℕ) : ℤ) - off)
  else none

/-- `LanMeasurement::timestamp` from src/lan.rs: normalize the `DateTime`
field, then parse it as RFC-3339 and convert to UTC.  `none` models the
panic on a missing/mistyped field or an unparseable string. -/
def LanMeasurement.timestamp (m : LanMeasurement) : Option ℤ :=
  match m.get_string "DateTime" with
  | none => none
  | some date_time => parseRfc3339ToUtc (normalizeDateTime date_time)

/-- The breakpoint row table exactly as the claim words it: concentration
bounds in tenths paired with AQI bounds, indexed 0–6 (out-of-range indices
repeat the last row). -/
def specRow : ℕ → (ℤ × ℤ) × (ℤ × ℤ)
  | 0 => ((0, 120), (0, 50))
  | 1 => ((121, 354), (51, 100))
  | 2 => ((355, 554), (101, 150))
  | 3 => ((555, 1504), (151, 200))
  | 4 => ((1505, 2504), (201, 300))
  | 5 => ((2505, 3504), (301, 400))
  | _ => ((3505, 5004), (401, 500))

/-- The bucket selection exactly as the claim words it: the first row whose
inclusive `[low, high]` range contains `v`, clamped to the last row when no
row matches. -/
def specBucket (v : ℤ) : ℕ :=
  if 0 ≤ v ∧ v ≤ 120 then 0
  else if 121 ≤ v ∧ v ≤ 354 then 1
  else if 355 ≤ v ∧ v ≤ 554 then 2
  else if 555 ≤ v ∧ v ≤ 1504 then 3
  else if 1505 ≤ v ∧ v ≤ 2504 then 4
  else if 2505 ≤ v ∧ v ≤ 3504 then 5
  else 6

/-- The AQI computation exactly as the claim words it: truncate `10 × pm`
to an integer `v`, pick the bucket containing `v` (clamping to the last
bucket), and return `(Ih − Il) × (C − Cl) / (Ch − Cl) + Il` with
`C = v / 10` and the concentration bounds divided by 10. -/
def getAqiSpec (pm : ℚ) : ℚ :=
  let v : ℤ := ratTrunc (10 * pm)
  let row := specRow (specBucket v)
  let cl : ℚ := (row.1.1 : ℚ) / 10
  let ch : ℚ := (row.1.2 : ℚ) / 10
  let il : ℚ := (row.2.1 : ℚ)
  let ih : ℚ := (row.2.2 : ℚ)
  (ih - il) * ((v : ℚ) / 10 - cl) / (ch - cl) + il

/-- C1: `get_aqi` computes the AQI exactly as specified: multiply the input
by 10 and truncate to an integer, select the first breakpoint bucket whose
inclusive `[low, high]` range contains the truncated value (clamping to the
last bucket when none matches, including values above the top breakpoint,
which extrapolate along the last bucket's line), and return
`(Ih − Il) × (C − Cl) / (Ch − Cl) + Il` with `C` the truncated value
divided by 10 and the bucket bounds divided by 10. -/
theorem C1_get_aqi_follows_spec_table : ∀ pm : ℚ, get_aqi pm = getAqiSpec pm := by
  intro pm
  unfold get_aqi getAqiSpec
  generalize ratTrunc (10 * pm) = v
  simp only [CONCENTRATION_LIMITS, AQI_LIMITS, findBucket, specBucket,
    specRow, List.length_cons, List.length_nil, List.getLastD, List.getLast,
    List.getD, List.get?, Option.getD_some, Option.getD_none]
  split_ifs <;> norm_num

/-- C2: `get_epa_correction a b h` equals
`max 0 (0.52 × ((a + b) / 2) − 0.085 × h + 5.71)`, is symmetric in `a` and
`b`, and is non-negative for every input. -/
theorem C2_epa_correction_formula :
    ∀ (a b : ℚ) (h : ℤ),
      get_epa_correction a b h =
        max 0 (0.52 * ((a + b) / 2) - 0.085 * (h : ℚ) + 5.71) ∧
      get_epa_correction a b h = get_epa_correction b a h ∧
      0 ≤ get_epa_correction a b h := by
  intro a b h
  refine ⟨rfl, ?_, le_max_left 0 _⟩
  unfold get_epa_correction
  ring_nf

/-- C4: over `[0, 5004]` tenths the breakpoint ranges partition the
interval (each value lies in exactly one bucket, no overlap, no gap), and
at the documented endpoints `get_aqi 0 = 0` and `get_aqi 500.4 = 500`
(exactly the `I_high` of the last table row). -/
theorem C4_boundary_buckets :
    (∀ v : ℤ, 0 ≤ v → v ≤ 5004 →
      CONCENTRATION_LIMITS.countP (fun p => decide (p.1 ≤ v ∧ v ≤ p.2)) = 1) ∧
    get_aqi 0 = 0 ∧ get_aqi 500.4 = 500 := by
  refine ⟨fun v hv0 hv1 => ?_, ?_, ?_⟩
  · simp only [CONCENTRATION_LIMITS, List.countP_cons, List.countP_nil,
      decide_eq_true_eq]
    split_ifs <;> omega
  · norm_num [get_aqi, ratTrunc, CONCENTRATION_LIMITS, AQI_LIMITS, findBucket]
  · norm_num [get_aqi, ratTrunc, CONCENTRATION_LIMITS, AQI_LIMITS, findBucket]

/-- C4 witness: the boundary value 120 tenths (12.0 µg/m³) lies in exactly
one bucket. -/
theorem C4_boundary_buckets_witness :
    CONCENTRATION_LIMITS.countP
      (fun p => decide (p.1 ≤ (120 : ℤ) ∧ (120 : ℤ) ≤ p.2)) = 1 :=
  C4_boundary_buckets.1 120 (by norm_num) (by norm_num)

/-- C9: the Fahrenheit-to-Celsius conversion is `(f − 32) × 5 / 9`, the
same function is applied by `temp_c` and `dew_point_c`, and it maps 32 to 0
and 212 to 100. -/
theorem C9_f_to_c_conversion :
    (∀ f : ℤ, f_to_c f = ((f : ℚ) - 32) * 5 / 9 ∧ temp_c f = f_to_c f ∧
      dew_point_c f = f_to_c f) ∧
    f_to_c 32 = 0 ∧ f_to_c 212 = 100 :=
  ⟨fun _ => ⟨rfl, rfl, rfl⟩, by norm_num [f_to_c], by norm_num [f_to_c]⟩

/-- C10: whenever the tenths-truncated value of the input is negative, no
breakpoint bucket contains it and `get_aqi` falls back to the last bucket,
computing the result from the `(3505, 5004)` / `(401, 500)` row's line. -/
theorem C10_negative_trunc_clamps_to_last_bucket :
    ∀ pm : ℚ, ratTrunc (10 * pm) < 0 →
      CONCENTRATION_LIMITS.countP
        (fun p => decide (p.1 ≤ ratTrunc (10 * pm) ∧
          ratTrunc (10 * pm) ≤ p.2)) = 0 ∧
      get_aqi pm =
        ((500 : ℚ) - 401) * ((ratTrunc (10 * pm) : ℚ) / 10 - 3505 / 10) /
          (5004 / 10 - 3505 / 10) + 401 := by
  intro pm hneg
  constructor
  · simp only [CONCENTRATION_LIMITS, List.countP_cons, List.countP_nil,
      decide_eq_true_eq]
    split_ifs <;> omega
  · unfold get_aqi
    simp only [CONCENTRATION_LIMITS, AQI_LIMITS, findBucket,
      List.length_cons, List.length_nil, List.getLastD, List.getLast,
      List.getD, List.get?, Option.getD_some, Option.getD_none]
    split_ifs <;> first
      | (exfalso; omega)
      | norm_num

/-- A backing document holding channel A's CF=1 PM2.5 field and the
humidity, but missing channel B's `pm2_5_cf_1_b` field. -/
def missingChannelBDoc : List (String × JsonValue) :=
  [("pm2_5_cf_1", .numF 10), ("current_humidity", .numI 50)]

/-- C3 counterexample: on a LAN measurement whose document lacks channel
B's CF=1 PM2.5 field, `pm_2v5_epa_correction` panics inside
`LanMeasurement::get` (modelled `none`) instead of returning the absent
result (`some none`) the claim promises — a missing backing field is an
error, not a first-class absence. -/
theorem C3_missing_field_panics_counterexample :
    missingChannelBDoc.lookup "pm2_5_cf_1_b" = none ∧
    LanMeasurement.pm_2v5_epa_correction ⟨missingChannelBDoc⟩ = none ∧
    LanMeasurement.pm_2v5_epa_correction ⟨missingChannelBDoc⟩ ≠ some none :=
  ⟨by decide, by decide, by decide⟩

/-- C3 (amended): at the trait level `pm_2v5_epa_correction` is absent
exactly when either channel's `particulate_mass` result is absent, and
equals `get_epa_correction` of the two channel values and the humidity when
both are present; for the LAN measurement a CF=1 PM2.5 field missing from
the backing document makes `particulate_mass` panic (modelled `none`)
rather than return an absent value. -/
theorem C3_epa_correction_requires_both_channels :
    ∀ (pmMass : Channel → Option ℚ) (humidity : ℤ),
      (pm_2v5_epa_correction pmMass humidity = none ↔
        pmMass .A = none ∨ pmMass .B = none) ∧
      (∀ a b, pmMass .A = some a → pmMass .B = some b →
        pm_2v5_epa_correction pmMass humidity =
          some (get_epa_correction a b humidity)) ∧
      (∀ (m : LanMeasurement) (c : Channel),
        m.json.lookup (pmMassKey .pm2v5 .cf1 c) = none →
        m.particulate_mass .pm2v5 .cf1 c = none) := by
  intro pmMass humidity
  refine ⟨?_, ?_, ?_⟩
  · rcases hA : pmMass .A with _ | a <;> rcases hB : pmMass .B with _ | b <;>
      simp [pm_2v5_epa_correction, channels, hA, hB, List.filterMap_cons]
  · intro a b hA hB
    simp [pm_2v5_epa_correction, channels, hA, hB, List.filterMap_cons]
  · intro m c hlk
    simp [LanMeasurement.particulate_mass, LanMeasurement.get_f64,
      LanMeasurement.get, hlk]

/-- C3 witness: with both channels reporting (10 and 12) and humidity 50,
the correction is present and equals `get_epa_correction 10 12 50`. -/
theorem C3_epa_correction_witness :
    pm_2v5_epa_correction
      (fun c => match c with | .A => some 10 | .B => some 12) 50 =
      some (get_epa_correction 10 12 50) :=
  (C3_epa_correction_requires_both_channels
    (fun c => match c with | .A => some 10 | .B => some 12) 50).2.1
    10 12 rfl rfl

/-- C5: `particulate_mass` on the LAN measurement is absent (`some none`,
no panic) for the 0.3, 0.5 and 5.0 µm size classes whatever the document,
type and channel; for 1.0, 2.5 and 10.0 µm it returns the float value
stored under the key built from the canonical size/type/channel renderings
whenever that field exists. -/
theorem C5_particulate_mass_size_support :
    ∀ (m : LanMeasurement) (t : PmType) (c : Channel),
      (m.particulate_mass .pm0v3 t c = some none ∧
       m.particulate_mass .pm0v5 t c = some none ∧
       m.particulate_mass .pm5v0 t c = some none) ∧
      (∀ s : PmSize, s = .pm1v0 ∨ s = .pm2v5 ∨ s = .pm10v0 → ∀ q : ℚ,
        m.json.lookup (pmMassKey s t c) = some (.numF q) →
        m.particulate_mass s t c = some (some q)) := by
  intro m t c
  refine ⟨⟨rfl, rfl, rfl⟩, ?_⟩
  rintro s (rfl | rfl | rfl) q hlk <;>
    simp [LanMeasurement.particulate_mass, LanMeasurement.get_f64,
      LanMeasurement.get, hlk, jsonTypeMatches, JsonValue.is_f64,
      JsonValue.as_f64]

/-- C5 witness: on a document holding `pm2_5_cf_1 = 7.0`, the 2.5 µm CF=1
channel-A mass is present with value 7, while the 0.3 µm lookup is absent. -/
theorem C5_particulate_mass_witness :
    (⟨[("pm2_5_cf_1", JsonValue.numF 7)]⟩ : LanMeasurement).particulate_mass
        .pm2v5 .cf1 .A = some (some 7) ∧
    (⟨[("pm2_5_cf_1", JsonValue.numF 7)]⟩ : LanMeasurement).particulate_mass
        .pm0v3 .cf1 .A = some none :=
  ⟨(C5_particulate_mass_size_support ⟨[("pm2_5_cf_1", JsonValue.numF 7)]⟩
      .cf1 .A).2 .pm2v5 (Or.inr (Or.inl rfl)) 7 (by decide),
   (C5_particulate_mass_size_support ⟨[("pm2_5_cf_1", JsonValue.numF 7)]⟩
      .cf1 .A).1.1⟩

/-- C6: `LanMeasurement::get` panics (modelled `none`) when the key is
missing or the stored value's representation does not match the expected
kind, and returns the stored value untouched when it matches; the derived
accessors `get_string`, `get_f64`, `get_i64`, `get_u64` then return the
exact stored payload. -/
theorem C6_typed_accessor_contract :
    ∀ (m : LanMeasurement) (key : String),
      (m.json.lookup key = none → ∀ k, m.get key k = none) ∧
      (∀ v k, m.json.lookup key = some v → jsonTypeMatches v k = false →
        m.get key k = none) ∧
      (∀ v k, m.json.lookup key = some v → jsonTypeMatches v k = true →
        m.get key k = some v) ∧
      (∀ s, m.json.lookup key = some (.str s) → m.get_string key = some s) ∧
      (∀ q, m.json.lookup key = some (.numF q) → m.get_f64 key = some q) ∧
      (∀ n, m.json.lookup key = some (.numI n) → m.get_i64 key = some n) ∧
      (∀ n, m.json.lookup key = some (.numU n) → m.get_u64 key = some n) := by
  intro m key
  refine ⟨fun h k => ?_, fun v k h1 h2 => ?_, fun v k h1 h2 => ?_,
    fun s h => ?_, fun q h => ?_, fun n h => ?_, fun n h => ?_⟩
  · simp [LanMeasurement.get, h]
  · simp [LanMeasurement.get, h1, h2]
  · simp [LanMeasurement.get, h1, h2]
  · simp [LanMeasurement.get_string, LanMeasurement.get, h, jsonTypeMatches,
      JsonValue.is_string, JsonValue.as_str]
  · simp [LanMeasurement.get_f64, LanMeasurement.get, h, jsonTypeMatches,
      JsonValue.is_f64, JsonValue.as_f64]
  · simp [LanMeasurement.get_i64, LanMeasurement.get, h, jsonTypeMatches,
      JsonValue.is_i64, JsonValue.as_i64]
  · simp [LanMeasurement.get_u64, LanMeasurement.get, h, jsonTypeMatches,
      JsonValue.is_u64, JsonValue.as_u64]

/-- C6 witness: on a document with a string field `a` and a float field
`b = 3.0`, requesting `a` as a float panics (`none`), while requesting `b`
as a float returns the stored value unchanged, both through `get` and
through `get_f64`. -/
theorem C6_typed_accessor_witness :
    (⟨[("a", JsonValue.str "x"), ("b", JsonValue.numF 3)]⟩ :
        LanMeasurement).get "a" .f64 = none ∧
    (⟨[("a", JsonValue.str "x"), ("b", JsonValue.numF 3)]⟩ :
        LanMeasurement).get "b" .f64 = some (JsonValue.numF 3) ∧
    (⟨[("a", JsonValue.str "x"), ("b", JsonValue.numF 3)]⟩ :
        LanMeasurement).get_f64 "b" = some 3 :=
  ⟨(C6_typed_accessor_contract
      ⟨[("a", JsonValue.str "x"), ("b", JsonValue.numF 3)]⟩ "a").2.1
      (JsonValue.str "x") .f64 (by decide) (by decide),
   (C6_typed_accessor_contract
      ⟨[("a", JsonValue.str "x"), ("b", JsonValue.numF 3)]⟩ "b").2.2.1
      (JsonValue.numF 3) .f64 (by decide) (by decide),
   (C6_typed_accessor_contract
      ⟨[("a", JsonValue.str "x"), ("b", JsonValue.numF 3)]⟩ "b").2.2.2.2.1
      3 (by decide)⟩

/-- C7: `pm_2v5_aqi_epa` is `get_aqi` mapped over `pm_2v5_epa_correction`:
present with value `get_aqi v` exactly when the correction is present with
value `v`, and absent exactly when the correction is absent, with no other
outcome. -/
theorem C7_aqi_epa_propagates_absence :
    ∀ (pmMass : Channel → Option ℚ) (humidity : ℤ),
      pm_2v5_aqi_epa pmMass humidity =
        (pm_2v5_epa_correction pmMass humidity).map get_aqi ∧
      (∀ v, pm_2v5_epa_correction pmMass humidity = some v →
        pm_2v5_aqi_epa pmMass humidity = some (get_aqi v)) ∧
      (pm_2v5_aqi_epa pmMass humidity = none ↔
        pm_2v5_epa_correction pmMass humidity = none) := by
  intro pmMass humidity
  rcases hc : pm_2v5_epa_correction pmMass humidity with _ | v <;>
    simp [pm_2v5_aqi_epa, hc]

/-- C7 witness: with both channels reporting 5 and humidity 40 the
correction is present, and the EPA-corrected AQI is `get_aqi` of it. -/
theorem C7_aqi_epa_witness :
    pm_2v5_aqi_epa (fun _ => some 5) 40 =
      some (get_aqi (get_epa_correction 5 5 40)) :=
  (C7_aqi_epa_propagates_absence (fun _ => some 5) 40).2.1
    (get_epa_correction 5 5 40) rfl

/-- C8: `LanMeasurement::timestamp` uppercases the raw `DateTime` string
and turns every `/` into `-` before RFC-3339 parsing to a UTC instant; in
particular `"2021/01/02 03:04:05z"` normalizes to
`"2021-01-02 03:04:05Z"` and parses to the same UTC instant as
`"2021-01-02T03:04:05Z"` (Unix second 1609556645). -/
theorem C8_timestamp_normalization :
    (∀ (m : LanMeasurement) (s : String),
      m.get_string "DateTime" = some s →
      m.timestamp = parseRfc3339ToUtc (normalizeDateTime s)) ∧
    normalizeDateTime "2021/01/02 03:04:05z" = "2021-01-02 03:04:05Z" ∧
    parseRfc3339ToUtc (normalizeDateTime "2021/01/02 03:04:05z") =
      parseRfc3339ToUtc "2021-01-02T03:04:05Z" ∧
    parseRfc3339ToUtc "2021-01-02T03:04:05Z" = some 1609556645 := by
  refine ⟨fun m s hs => ?_, by decide, by decide, by decide⟩
  unfold LanMeasurement.timestamp
  rw [hs]

/-- C8 witness: a LAN measurement whose `DateTime` field is
`"2021/01/02 03:04:05z"` has the timestamp of the normalized string. -/
theorem C8_timestamp_witness :
    (⟨[("DateTime", JsonValue.str "2021/01/02 03:04:05z")]⟩ :
        LanMeasurement).timestamp =
      parseRfc3339ToUtc (normalizeDateTime "2021/01/02 03:04:05z") :=
  C8_timestamp_normalization.1
    ⟨[("DateTime", JsonValue.str "2021/01/02 03:04:05z")]⟩
    "2021/01/02 03:04:05z" (by decide)

/-- C10 witness: at the concrete input −1 µg/m³ the truncated value −10 is
negative, matches no bucket, and `get_aqi` follows the last row's line. -/
theorem C10_negative_trunc_witness :
    ratTrunc (10 * (-1 : ℚ)) < 0 ∧
      (CONCENTRATION_LIMITS.countP
        (fun p => decide (p.1 ≤ ratTrunc (10 * (-1 : ℚ)) ∧
          ratTrunc (10 * (-1 : ℚ)) ≤ p.2)) = 0 ∧
      get_aqi (-1) =
        ((500 : ℚ) - 401) * ((ratTrunc (10 * (-1 : ℚ)) : ℚ) / 10 - 3505 / 10) /
          (5004 / 10 - 3505 / 10) + 401) :=
  ⟨by
    rw [ratTrunc, show (10 * (-1 : ℚ)) = ((-10 : ℤ) : ℚ) by norm_num]
    rw [if_neg (by norm_num), Int.ceil_intCast]
    norm_num,
   C10_negative_trunc_clamps_to_last_bucket (-1) (by
    rw [ratTrunc, show (10 * (-1 : ℚ)) = ((-10 : ℤ) : ℚ) by norm_num]
    rw [if_neg (by norm_num), Int.ceil_intCast]
    norm_num)⟩

end PurpleAir
